import Mathlib

/-!
Shallow embedding of the streaming relay of the
strands-agent-discord-worker repository: the `DiscordStreamWriter`
class of `src/lambda/utils.py` and the envelope-parsing error path of
`src/lambda/lambda_function.py`.

Python strings are modelled as Lean `String`s and the character list
`self.current_line` as a `List Char`.  Every method that may call
`self.send_queue.put(content)` is modelled as a function returning,
next to the updated writer state, the list of contents it enqueued, in
order; the queue itself, together with the background sender thread,
is modelled separately by the `Session` structure whose `sender_step`
performs one iteration of `_sender_worker`.
-/

/-- Python `str.isspace` restricted to the ASCII whitespace characters:
space, tab, newline, carriage return, vertical tab and form feed.  Used
to model the truthiness test `if content.strip():` of the source. -/
def isPySpace (c : Char) : Bool :=
  c = ' ' || c = '\t' || c = '\n' || c = '\r' || c = '\x0b' || c = '\x0c'

/-- Truthiness of Python `content.strip()`: it is the empty (falsy) string
exactly when every character of `content` is whitespace, in particular when
`content` itself is empty. -/
def pyStripIsEmpty (s : String) : Bool := s.data.all isPySpace

/-- Buffer state of `DiscordStreamWriter` (src/lambda/utils.py, lines
24-43): the two buffering parameters, the completed-line buffer, the
current partial line (a character list, as in the source) and the
total-content accumulator.  The token / application-id / bot-token
fields play no role in the buffering logic and are omitted. -/
structure DiscordStreamWriter where
  min_lines : Nat
  max_buffer_size : Nat
  line_buffer : List String
  current_line : List Char
  total_content : List String

/-- Fresh buffer state installed by `__init__` (utils.py lines 24-43);
the source's defaults are `min_lines = 1`, `max_buffer_size = 1500`. -/
def init_writer (min_lines max_buffer_size : Nat) : DiscordStreamWriter :=
  { min_lines := min_lines, max_buffer_size := max_buffer_size,
    line_buffer := [], current_line := [], total_content := [] }

namespace DiscordStreamWriter

/-- Model of `_check_and_send_buffer` (utils.py lines 81-90): when at least
`min_lines` completed lines are buffered, join them with newlines, enqueue
the joined content unless it strips to nothing, and clear the line buffer. -/
def check_and_send_buffer (w : DiscordStreamWriter) :
    DiscordStreamWriter × List String :=
  if w.line_buffer.length ≥ w.min_lines then
    let content := String.intercalate "\n" w.line_buffer
    let out := if !(pyStripIsEmpty content) then [content] else []
    ({ w with line_buffer := [] }, out)
  else
    (w, [])

/-- Model of `_force_send_buffer` (utils.py lines 92-105): fold the current
partial line into the buffered lines, enqueue everything joined with
newlines unless it strips to nothing, and clear both buffers. -/
def force_send_buffer (w : DiscordStreamWriter) :
    DiscordStreamWriter × List String :=
  let p := if w.current_line ≠ [] then
      (w.line_buffer ++ [String.mk w.current_line], { w with current_line := [] })
    else
      (w.line_buffer, w)
  let all_lines := p.1
  let w := p.2
  let out := if all_lines ≠ [] then
      let content := String.intercalate "\n" all_lines
      if !(pyStripIsEmpty content) then [content] else []
    else []
  ({ w with line_buffer := [] }, out)

/-- Body of the `for char in s` loop of `write` (utils.py lines 57-69): a
newline completes the current line (when non-empty) and triggers the
soft-flush check; any other character is appended to the current line. -/
def write_char (w : DiscordStreamWriter) (c : Char) :
    DiscordStreamWriter × List String :=
  if c = '\n' then
    let w := if w.current_line ≠ [] then
        { w with line_buffer := w.line_buffer ++ [String.mk w.current_line],
                 current_line := [] }
      else w
    check_and_send_buffer w
  else
    ({ w with current_line := w.current_line ++ [c] }, [])

/-- Iteration of the `for char in s` loop over a character list, chaining
the enqueued chunks in order. -/
def write_chars (w : DiscordStreamWriter) :
    List Char → DiscordStreamWriter × List String
  | [] => (w, [])
  | c :: cs =>
    let r := write_char w c
    let r2 := write_chars r.1 cs
    (r2.1, r.2 ++ r2.2)

/-- Buffer-size accounting of `write` (utils.py lines 71-74): the summed
lengths of the buffered completed lines, plus the length of the current
partial line when it is non-empty. -/
def buffer_size (w : DiscordStreamWriter) : Nat :=
  (w.line_buffer.map String.length).sum +
    (if w.current_line ≠ [] then w.current_line.length else 0)

/-- Model of `write` (utils.py lines 45-79): an empty string is ignored;
otherwise the string is recorded in `total_content`, processed character by
character, and a hard flush fires when the buffer size reaches
`max_buffer_size`.  The source also returns `len(s)` (the result of the
underlying `StringIO.write`), which plays no further role. -/
def write (w : DiscordStreamWriter) (s : String) :
    DiscordStreamWriter × List String :=
  if s = "" then (w, [])
  else
    let w := { w with total_content := w.total_content ++ [s] }
    let r := write_chars w s.data
    if buffer_size r.1 ≥ r.1.max_buffer_size then
      let r2 := force_send_buffer r.1
      (r2.1, r.2 ++ r2.2)
    else
      r

/-- Buffer-draining half of `flush_remaining` (utils.py lines 145-157),
whose body repeats `_force_send_buffer` lines 94-105 verbatim; the
`send_queue.join()` of line 160 is modelled at the `Session` level. -/
def flush_remaining_chunks (w : DiscordStreamWriter) :
    DiscordStreamWriter × List String :=
  force_send_buffer w

/-- Model of `get_full_content` (utils.py lines 169-172):
`''.join(self.total_content)`. -/
def get_full_content (w : DiscordStreamWriter) : String :=
  String.join w.total_content

/-- Sequence of `write` calls, ignoring the enqueued chunks. -/
def write_all (w : DiscordStreamWriter) : List String → DiscordStreamWriter
  | [] => w
  | t :: ts => write_all (w.write t).1 ts

end DiscordStreamWriter

/-- One streaming session: the shared buffer state (mutated under
`self.lock`), the FIFO `send_queue` contents, and the list of chunks the
background `_sender_worker` has already passed to `_send_to_discord`, in
order. -/
structure Session where
  writer : DiscordStreamWriter
  send_queue : List String
  dispatched : List String

/-- Fresh session as built by `__init__`: empty buffers, empty queue,
nothing dispatched. -/
def init_session (min_lines max_buffer_size : Nat) : Session :=
  { writer := init_writer min_lines max_buffer_size,
    send_queue := [], dispatched := [] }

namespace Session

/-- Producer-side `write`: the chunks the writer enqueues are appended to
the FIFO send queue. -/
def write (s : Session) (t : String) : Session :=
  let r := s.writer.write t
  { s with writer := r.1, send_queue := s.send_queue ++ r.2 }

/-- One iteration of `_sender_worker` (utils.py lines 107-118): pop the
front of the queue, if any, and deliver it; on an empty queue the worker
just loops. -/
def sender_step (s : Session) : Session :=
  match s.send_queue with
  | [] => s
  | c :: rest => { s with send_queue := rest, dispatched := s.dispatched ++ [c] }

/-- State reached once `send_queue.join()` returns: the worker has taken
and delivered every queued chunk, in FIFO order. -/
def queue_join (s : Session) : Session :=
  { s with send_queue := [], dispatched := s.dispatched ++ s.send_queue }

/-- Model of `flush_remaining` (utils.py lines 143-160): drain the buffers
into one final chunk (unless whitespace-only), then block until the queue
is fully dispatched. -/
def flush_remaining (s : Session) : Session :=
  let r := s.writer.flush_remaining_chunks
  queue_join { s with writer := r.1, send_queue := s.send_queue ++ r.2 }

/-- Model of `close` (utils.py lines 162-167): `flush_remaining` followed
by the stop signal and the bounded thread join, neither of which changes
the buffer, queue or dispatch state. -/
def close (s : Session) : Session :=
  s.flush_remaining

end Session

/-- Interleaving alphabet for one session: a producer `write` call or one
dispatch iteration of the single background sender worker. -/
inductive SessionOp where
  | wr (t : String)
  | deliver

/-- Run an arbitrary interleaving of producer writes and sender-worker
iterations. -/
def run_ops (s : Session) : List SessionOp → Session
  | [] => s
  | SessionOp.wr t :: ops => run_ops (s.write t) ops
  | SessionOp.deliver :: ops => run_ops s.sender_step ops

/-- Chunks enqueued by the producer writes of an operation list, in the
order the writes occur. -/
def emitted_chunks (w : DiscordStreamWriter) : List SessionOp → List String
  | [] => []
  | SessionOp.wr t :: ops =>
    let r := w.write t
    r.2 ++ emitted_chunks r.1 ops
  | SessionOp.deliver :: ops => emitted_chunks w ops

/-- Writer state after the producer writes of an operation list. -/
def writer_after (w : DiscordStreamWriter) : List SessionOp → DiscordStreamWriter
  | [] => w
  | SessionOp.wr t :: ops => writer_after (w.write t).1 ops
  | SessionOp.deliver :: ops => writer_after w ops

/-- Truncation rule of `_send_to_discord` (utils.py lines 129-131): a chunk
longer than 1900 characters is cut to its first 1900 characters with a
`"..."` marker appended. -/
def truncate_for_discord (content : String) : String :=
  if content.length > 1900 then content.take 1900 ++ "..." else content

/-- Display wrapping of `_send_to_discord` (utils.py line 133): the value of
the `content` field of the JSON body is the chunk text wrapped in a
preformatted code block. -/
def wrap_payload (content : String) : String :=
  "```\n" ++ content ++ "\n```"

/-- Outcome of one `_send_to_discord` call: the `content` field actually
posted, and whether the POST was attempted. -/
structure DiscordPost where
  payload : String
  attempted : Bool

/-- Model of `_send_to_discord` (utils.py lines 120-141): truncate, wrap,
and unconditionally attempt the POST; exceptions and non-204 statuses are
only logged. -/
def send_to_discord (content : String) : DiscordPost :=
  { payload := wrap_payload (truncate_for_discord content), attempted := true }

/-- Concrete 1993-character chunk whose wrapped payload has 2001
characters. -/
def big_content : String := String.mk (List.replicate 1993 'a')

/-- One element of `data["options"]` of the inbound SNS message
(src/lambda/lambda_function.py lines 102-111); `value` is absent when the
JSON object has no `value` key. -/
structure SnsOption where
  value : Option String

/-- The `data` object of the inbound message; `options` is absent when the
object has no `options` key, in which case `data.get("options", [])`
yields the empty list. -/
structure SnsData where
  options : Option (List SnsOption)

/-- Decoded JSON body of `event["Records"][0]["Sns"]["Message"]`
(lambda_function.py lines 95-113): an optional `token` and an optional
`data` object, `request.get("data", {})` defaulting to an empty object. -/
structure SnsRequest where
  token : Option String
  data : Option SnsData

/-- Python truthiness of an optional string: `None` and the empty string
are falsy. -/
def pyTruthyStr : Option String → Option String
  | some s => if s = "" then none else some s
  | none => none

/-- The three `ValueError`s `_parse_sns_message` can raise
(lambda_function.py lines 98-111). -/
inductive ParseError where
  | tokenMissing
  | optionsMissing
  | promptMissing

/-- Message text of each `ValueError` raised by `_parse_sns_message`. -/
def parseErrorMessage : ParseError → String
  | ParseError.tokenMissing => "トークンが見つかりません"
  | ParseError.optionsMissing => "オプションが提供されていません"
  | ParseError.promptMissing => "プロンプトが見つかりません"

/-- Model of `_parse_sns_message` (lambda_function.py lines 82-113):
extract the token and the first option value, raising a `ValueError` when
the token is falsy, the options list is empty, or the prompt is falsy. -/
def parseSnsMessage (req : SnsRequest) : Except ParseError (String × String) :=
  match pyTruthyStr req.token with
  | none => Except.error ParseError.tokenMissing
  | some t =>
    match ((req.data.getD { options := none }).options).getD [] with
    | [] => Except.error ParseError.optionsMissing
    | o :: _ =>
      match pyTruthyStr o.value with
      | none => Except.error ParseError.promptMissing
      | some p => Except.ok (t, p)

/-- Reverse channel chosen by `_handle_request_error`: either a direct
Discord webhook delivery or a structured HTTP error body. -/
inductive HandlerResponse where
  | discordSend (token : String) (content : String)
  | httpError (statusCode : Nat) (error : String) (message : String)

/-- JSON string literal produced by `json.dumps` on the fixed error texts
(none of which needs escaping). -/
def jsonString (s : String) : String :=
  "\"" ++ s ++ "\""

/-- The `ValueError` branch of `_handle_request_error` (lambda_function.py
lines 284-298), the branch every `_parse_sns_message` failure hits: a
direct Discord delivery when the passed token is truthy, otherwise a
structured 400 body carrying the error message. -/
def handleRequestError (token : String) (e : ParseError) : HandlerResponse :=
  if token ≠ "" then
    HandlerResponse.discordSend token (jsonString "リクエストの形式が不正です")
  else
    HandlerResponse.httpError 400 "リクエストの形式が不正です" (parseErrorMessage e)

/-- The envelope-parsing phase of `lambda_handler` (lambda_function.py
lines 342-345): on any parse failure the handler returns
`_handle_request_error('', e)` — the token argument is the empty string
literal, regardless of what the envelope contained. -/
def lambdaHandlerParse (req : SnsRequest) :
    Except HandlerResponse (String × String) :=
  match parseSnsMessage req with
  | Except.error e => Except.error (handleRequestError "" e)
  | Except.ok tp => Except.ok tp

namespace DiscordStreamWriter

lemma total_content_check_and_send (w : DiscordStreamWriter) :
    w.check_and_send_buffer.1.total_content = w.total_content := by
  unfold check_and_send_buffer
  split <;> rfl

lemma total_content_force_send (w : DiscordStreamWriter) :
    w.force_send_buffer.1.total_content = w.total_content := by
  unfold force_send_buffer
  by_cases h : w.current_line = [] <;> simp [h]

lemma total_content_write_char (w : DiscordStreamWriter) (c : Char) :
    (w.write_char c).1.total_content = w.total_content := by
  unfold write_char
  by_cases hc : c = '\n'
  · by_cases h : w.current_line = [] <;>
      simp [hc, h, total_content_check_and_send]
  · simp [hc]

lemma total_content_write_chars (cs : List Char) (w : DiscordStreamWriter) :
    (write_chars w cs).1.total_content = w.total_content := by
  induction cs generalizing w with
  | nil => rfl
  | cons c cs ih =>
    simp [write_chars, ih, total_content_write_char]

lemma total_content_write (w : DiscordStreamWriter) (s : String) :
    (w.write s).1.total_content =
      w.total_content ++ (if s = "" then [] else [s]) := by
  unfold write
  by_cases hs : s = ""
  · simp [hs]
  · simp only [hs, if_false]
    split
    · simp [total_content_force_send, total_content_write_chars]
    · simp [total_content_write_chars]

lemma join_append_one (l : List String) (s : String) :
    String.join (l ++ [s]) = String.join l ++ s := by
  apply String.ext
  simp [String.join_eq]

lemma get_full_content_write_all (ts : List String) (w : DiscordStreamWriter) :
    (w.write_all ts).get_full_content =
      w.get_full_content ++ String.join ts := by
  induction ts generalizing w with
  | nil => simp [write_all, String.join]
  | cons t ts ih =>
    rw [write_all, ih]
    unfold get_full_content
    rw [total_content_write]
    by_cases ht : t = ""
    · subst ht
      simp [String.join]
    · rw [if_neg ht, join_append_one]
      have : String.join (t :: ts) = t ++ String.join ts := by
        apply String.ext
        simp [String.join_eq]
      rw [this, String.append_assoc]

end DiscordStreamWriter

/-- Claim C1: for every sequence of `write(text)` calls on one session,
`get_full_content()` returns exactly the concatenation of the texts,
independent of flushing, whitespace suppression or delivery truncation
(which never touch `total_content`): flushing the buffers also leaves the
accumulated content unchanged. -/
theorem C1_get_full_content_is_concat :
    (∀ min_lines max_buffer_size : Nat, ∀ ts : List String,
      ((init_writer min_lines max_buffer_size).write_all ts).get_full_content =
        String.join ts) ∧
    (∀ w : DiscordStreamWriter,
      w.flush_remaining_chunks.1.get_full_content = w.get_full_content) := by
  constructor
  · intro m b ts
    rw [DiscordStreamWriter.get_full_content_write_all]
    simp [init_writer, DiscordStreamWriter.get_full_content, String.join]
  · intro w
    simp [DiscordStreamWriter.flush_remaining_chunks,
      DiscordStreamWriter.get_full_content,
      DiscordStreamWriter.total_content_force_send]

/-- Claim C2: on a fresh session with `min_lines = 1` (and the default
`max_buffer_size = 1500`), a single `write("a\nb\nc\n")` enqueues exactly
the three chunks `"a"`, `"b"`, `"c"`, in that order — one per completed
line. -/
theorem C2_min_lines_one_three_chunks :
    ((init_writer 1 1500).write "a\nb\nc\n").2 = ["a", "b", "c"] := by
  decide

/-- Claim C4: on a fresh session with `min_lines = 3` and the default
`max_buffer_size = 1500`, writing `"a\nb\n"` enqueues no chunk, and a
subsequent `flush_remaining()` dispatches exactly one chunk `"a\nb"`. -/
theorem C4_incomplete_batch_flush :
    ((init_session 3 1500).write "a\nb\n").send_queue = [] ∧
    ((init_session 3 1500).write "a\nb\n").dispatched = [] ∧
    (((init_session 3 1500).write "a\nb\n").flush_remaining).dispatched =
      ["a\nb"] ∧
    (((init_session 3 1500).write "a\nb\n").flush_remaining).send_queue = [] := by
  refine ⟨by decide, by decide, by decide, by decide⟩

namespace DiscordStreamWriter

lemma write_chars_no_newline (cs : List Char) (h : '\n' ∉ cs)
    (w : DiscordStreamWriter) :
    write_chars w cs = ({ w with current_line := w.current_line ++ cs }, []) := by
  induction cs generalizing w with
  | nil => simp [write_chars]
  | cons c cs ih =>
    have hc : c ≠ '\n' := by
      intro h'
      exact h (h' ▸ List.mem_cons_self _ _)
    have hcs : '\n' ∉ cs := fun h' => h (List.mem_cons_of_mem _ h')
    simp [write_chars, write_char, hc, ih hcs]

end DiscordStreamWriter

/-- Claim C3: on a fresh session with `max_buffer_size = 10` (and the
default `min_lines = 1`), a single `write` of a 15-character line with no
newline (and not whitespace-only, which would be suppressed) enqueues,
before the call returns, exactly one hard-flush chunk holding the full 15
characters. -/
theorem C3_hard_flush_oversized_line (s : String) (h1 : s.length = 15)
    (h2 : '\n' ∉ s.data) (h3 : pyStripIsEmpty s = false) :
    ((init_writer 1 10).write s).2 = [s] := by
  obtain ⟨cs⟩ := s
  have hne : cs ≠ [] := by
    intro h
    subst h
    simp [String.length] at h1
  have hs : String.mk cs ≠ "" := by
    intro h
    exact hne (congrArg String.data h)
  have hlen : cs.length = 15 := h1
  simp only [DiscordStreamWriter.write, if_neg hs,
    DiscordStreamWriter.write_chars_no_newline _ h2, init_writer]
  simp [DiscordStreamWriter.buffer_size, hne, hlen,
    DiscordStreamWriter.force_send_buffer, String.intercalate,
    String.intercalate.go, h3]

/-- Witness for claim C3 at the concrete 15-character input
`"abcdefghijklmno"`. -/
theorem C3_hard_flush_oversized_line_witness :
    ((init_writer 1 10).write "abcdefghijklmno").2 = ["abcdefghijklmno"] :=
  C3_hard_flush_oversized_line "abcdefghijklmno" (by decide) (by decide)
    (by decide)

namespace DiscordStreamWriter

lemma write_char_newline_on_empty_buffers (m b : Nat) (tc : List String) :
    write_char
      { min_lines := m, max_buffer_size := b, line_buffer := [],
        current_line := [], total_content := tc } '\n' =
      ({ min_lines := m, max_buffer_size := b, line_buffer := [],
         current_line := [], total_content := tc }, []) := by
  by_cases hm : ([] : List String).length ≥ m
  · unfold write_char check_and_send_buffer
    simp [hm, String.intercalate, pyStripIsEmpty]
  · unfold write_char check_and_send_buffer
    simp [hm, String.intercalate, pyStripIsEmpty]

lemma write_chars_newlines (n m b : Nat) (tc : List String) :
    write_chars
      { min_lines := m, max_buffer_size := b, line_buffer := [],
        current_line := [], total_content := tc } (List.replicate n '\n') =
      ({ min_lines := m, max_buffer_size := b, line_buffer := [],
         current_line := [], total_content := tc }, []) := by
  induction n with
  | zero => rfl
  | succ n ih =>
    rw [List.replicate_succ]
    simp [write_chars, write_char_newline_on_empty_buffers, ih]

end DiscordStreamWriter

/-- Claim C10: a newline processed while the current partial line is empty
appends no empty line to the line buffer (the `write_char` step is exactly
the soft-flush check); consequently, on a fresh session with any
`min_lines` and `max_buffer_size`, a write consisting only of newline
characters enqueues no chunk, while the newlines are still recorded and
returned by `get_full_content`. -/
theorem C10_empty_line_never_buffered :
    (∀ w : DiscordStreamWriter, w.current_line = [] →
      w.write_char '\n' = w.check_and_send_buffer) ∧
    (∀ min_lines max_buffer_size n : Nat,
      ((init_writer min_lines max_buffer_size).write
          (String.mk (List.replicate n '\n'))).2 = [] ∧
      ((init_writer min_lines max_buffer_size).write
          (String.mk (List.replicate n '\n'))).1.get_full_content =
        String.mk (List.replicate n '\n')) := by
  constructor
  · intro w h
    simp [DiscordStreamWriter.write_char, h]
  · intro m b n
    cases n with
    | zero =>
      constructor
      · rfl
      · rfl
    | succ n =>
      have hs : String.mk (List.replicate (n + 1) '\n') ≠ "" := by
        intro h
        have := congrArg String.data h
        simp [List.replicate_succ] at this
      have hdata : (String.mk (List.replicate (n + 1) '\n')).data =
          List.replicate (n + 1) '\n' := rfl
      simp only [DiscordStreamWriter.write, if_neg hs, init_writer, hdata,
        DiscordStreamWriter.write_chars_newlines]
      constructor
      · split <;>
          simp [DiscordStreamWriter.force_send_buffer]
      · split <;>
          simp [DiscordStreamWriter.force_send_buffer,
            DiscordStreamWriter.get_full_content, String.join]

/-- Witness for claim C10 at a writer with an empty current line. -/
theorem C10_empty_line_never_buffered_witness :
    (init_writer 1 1500).write_char '\n' =
      (init_writer 1 1500).check_and_send_buffer :=
  C10_empty_line_never_buffered.1 (init_writer 1 1500) rfl

namespace DiscordStreamWriter

lemma mem_strip_guard {content c : String}
    (h : c ∈ (if !(pyStripIsEmpty content) then [content] else [])) :
    pyStripIsEmpty c = false := by
  split at h
  · next hb =>
    rw [List.mem_singleton] at h
    subst h
    simpa using hb
  · simp at h

lemma mem_lines_guard {lines : List String} {c : String}
    (h : c ∈ (if lines ≠ [] then
        (let content := String.intercalate "\n" lines
         if !(pyStripIsEmpty content) then [content] else [])
      else ([] : List String))) :
    pyStripIsEmpty c = false := by
  split at h
  · exact mem_strip_guard h
  · simp at h

lemma not_ws_of_mem_check_and_send (w : DiscordStreamWriter) (c : String)
    (h : c ∈ w.check_and_send_buffer.2) : pyStripIsEmpty c = false := by
  unfold check_and_send_buffer at h
  split at h
  · exact mem_strip_guard h
  · simp at h

lemma not_ws_of_mem_force_send (w : DiscordStreamWriter) (c : String)
    (h : c ∈ w.force_send_buffer.2) : pyStripIsEmpty c = false := by
  unfold force_send_buffer at h
  split at h
  · exact mem_lines_guard h
  · exact mem_lines_guard h

lemma not_ws_of_mem_write_char (w : DiscordStreamWriter) (a : Char)
    (c : String) (h : c ∈ (w.write_char a).2) : pyStripIsEmpty c = false := by
  unfold write_char at h
  split at h
  · exact not_ws_of_mem_check_and_send _ _ h
  · simp at h

lemma not_ws_of_mem_write_chars (cs : List Char) (w : DiscordStreamWriter)
    (c : String) (h : c ∈ (write_chars w cs).2) : pyStripIsEmpty c = false := by
  induction cs generalizing w with
  | nil => simp [write_chars] at h
  | cons a cs ih =>
    simp only [write_chars, List.mem_append] at h
    rcases h with h | h
    · exact not_ws_of_mem_write_char _ _ _ h
    · exact ih _ h

lemma not_ws_of_mem_write (w : DiscordStreamWriter) (s : String) (c : String)
    (h : c ∈ (w.write s).2) : pyStripIsEmpty c = false := by
  unfold write at h
  split at h
  · simp at h
  · by_cases hb : buffer_size
        (write_chars { w with total_content := w.total_content ++ [s] } s.data).1 ≥
        (write_chars { w with total_content := w.total_content ++ [s] } s.data).1.max_buffer_size
    · rw [if_pos hb] at h
      simp only [List.mem_append] at h
      rcases h with h | h
      · exact not_ws_of_mem_write_chars _ _ _ h
      · exact not_ws_of_mem_force_send _ _ h
    · rw [if_neg hb] at h
      exact not_ws_of_mem_write_chars _ _ _ h

end DiscordStreamWriter

/-- Claim C7: no flush path — the soft flush of `_check_and_send_buffer`,
the hard flush of `_force_send_buffer` (also as fired inside `write`), or
`flush_remaining` — ever enqueues joined buffer content that consists only
of whitespace; yet buffered whitespace-only completed lines still count
toward the `max_buffer_size` accounting: with `min_lines = 100` and
`max_buffer_size = 10`, writing `"   \n"` (3 characters of it buffered)
and then `"abcdefg"` (7 more) fires the hard flush, whose chunk carries
the whitespace line along. -/
theorem C7_whitespace_chunks_suppressed_but_counted :
    (∀ w : DiscordStreamWriter, ∀ c ∈ w.check_and_send_buffer.2,
      pyStripIsEmpty c = false) ∧
    (∀ w : DiscordStreamWriter, ∀ c ∈ w.force_send_buffer.2,
      pyStripIsEmpty c = false) ∧
    (∀ w : DiscordStreamWriter, ∀ s : String, ∀ c ∈ (w.write s).2,
      pyStripIsEmpty c = false) ∧
    (∀ w : DiscordStreamWriter, ∀ c ∈ w.flush_remaining_chunks.2,
      pyStripIsEmpty c = false) ∧
    (((init_session 100 10).write "   \n").write "abcdefg").send_queue =
      ["   \nabcdefg"] := by
  refine ⟨?_, ?_, ?_, ?_, by decide⟩
  · intro w c h
    exact DiscordStreamWriter.not_ws_of_mem_check_and_send w c h
  · intro w c h
    exact DiscordStreamWriter.not_ws_of_mem_force_send w c h
  · intro w s c h
    exact DiscordStreamWriter.not_ws_of_mem_write w s c h
  · intro w c h
    exact DiscordStreamWriter.not_ws_of_mem_force_send w c h

/-- Witness for claim C7: concrete chunks emitted by each of the four
flush paths are not whitespace-only. -/
theorem C7_whitespace_chunks_suppressed_but_counted_witness :
    pyStripIsEmpty "a" = false ∧ pyStripIsEmpty "b" = false ∧
    pyStripIsEmpty "x" = false ∧ pyStripIsEmpty "y" = false :=
  ⟨C7_whitespace_chunks_suppressed_but_counted.1
      { min_lines := 1, max_buffer_size := 1500, line_buffer := ["a"],
        current_line := [], total_content := [] } "a" (by decide),
   C7_whitespace_chunks_suppressed_but_counted.2.1
      { min_lines := 1, max_buffer_size := 1500, line_buffer := ["b"],
        current_line := [], total_content := [] } "b" (by decide),
   C7_whitespace_chunks_suppressed_but_counted.2.2.1
      (init_writer 1 1500) "x\n" "x" (by decide),
   C7_whitespace_chunks_suppressed_but_counted.2.2.2.1
      { min_lines := 1, max_buffer_size := 1500, line_buffer := [],
        current_line := ['y'], total_content := [] } "y" (by decide)⟩

namespace DiscordStreamWriter

lemma force_send_line_buffer (w : DiscordStreamWriter) :
    w.force_send_buffer.1.line_buffer = [] := rfl

lemma force_send_current_line (w : DiscordStreamWriter) :
    w.force_send_buffer.1.current_line = [] := by
  by_cases h : w.current_line = []
  · simp [force_send_buffer, h]
  · simp [force_send_buffer, h]

lemma force_send_on_drained (w : DiscordStreamWriter)
    (h1 : w.line_buffer = []) (h2 : w.current_line = []) :
    w.force_send_buffer = (w, []) := by
  obtain ⟨m, b, lb, cl, tc⟩ := w
  simp only at h1 h2
  subst h1
  subst h2
  simp [force_send_buffer]

end DiscordStreamWriter

/-- Claim C9: after `close()` the line buffer, the partial line and the
send queue are all empty, a renewed buffer drain enqueues nothing, and a
second `close()` is the identity on the drained session — `close` is
idempotent. -/
theorem C9_close_idempotent (st : Session) :
    st.close.writer.line_buffer = [] ∧
    st.close.writer.current_line = [] ∧
    st.close.send_queue = [] ∧
    st.close.writer.flush_remaining_chunks.2 = [] ∧
    st.close.close = st.close := by
  have hlb : st.close.writer.line_buffer = [] :=
    DiscordStreamWriter.force_send_line_buffer st.writer
  have hcl : st.close.writer.current_line = [] :=
    DiscordStreamWriter.force_send_current_line st.writer
  have hdrained : st.close.writer.force_send_buffer = (st.close.writer, []) :=
    DiscordStreamWriter.force_send_on_drained _ hlb hcl
  refine ⟨hlb, hcl, rfl, ?_, ?_⟩
  · rw [DiscordStreamWriter.flush_remaining_chunks, hdrained]
  · show st.close.flush_remaining = st.close
    rw [Session.flush_remaining, DiscordStreamWriter.flush_remaining_chunks,
      hdrained]
    have hq : st.close.send_queue = [] := rfl
    show Session.queue_join
        { writer := st.close.writer, send_queue := st.close.send_queue ++ [],
          dispatched := st.close.dispatched } = st.close
    rw [hq]
    simp only [Session.queue_join, List.append_nil, List.nil_append]
    rfl

/-- Claim C5: whenever the wrapped delivery payload of a chunk would
exceed Discord's 2000-character cap, `_send_to_discord` posts a payload of
at most the cap length, whose wrapped text is the chunk cut to 1900
characters with the `"..."` truncation marker appended, and the POST is
still attempted — the chunk is never dropped. -/
theorem C5_oversized_payload_truncated (content : String)
    (h : (wrap_payload content).length > 2000) :
    (send_to_discord content).payload.length ≤ 2000 ∧
    (send_to_discord content).payload =
      wrap_payload (content.take 1900 ++ "...") ∧
    (send_to_discord content).attempted = true := by
  have hdata : content.length = content.data.length := rfl
  have h4a : ("```\n" : String).length = 4 := rfl
  have h4b : ("\n```" : String).length = 4 := rfl
  have h3d : ("..." : String).length = 3 := rfl
  have hlen : content.length > 1992 := by
    simp only [wrap_payload, String.length_append, h4a, h4b] at h
    omega
  have htr : truncate_for_discord content = content.take 1900 ++ "..." := by
    unfold truncate_for_discord
    rw [if_pos (by omega)]
  have htake : (content.take 1900).length = 1900 := by
    rw [String.take_eq]
    show (content.data.take 1900).length = 1900
    rw [List.length_take]
    omega
  refine ⟨?_, ?_, rfl⟩
  · show (wrap_payload (truncate_for_discord content)).length ≤ 2000
    rw [htr]
    simp only [wrap_payload, String.length_append, htake, h4a, h4b, h3d]
    omega
  · show wrap_payload (truncate_for_discord content) =
      wrap_payload (content.take 1900 ++ "...")
    rw [htr]

/-- Witness for claim C5 at the concrete 1993-character chunk. -/
theorem C5_oversized_payload_truncated_witness :
    (wrap_payload big_content).length > 2000 ∧
    ((send_to_discord big_content).payload.length ≤ 2000 ∧
      (send_to_discord big_content).payload =
        wrap_payload (big_content.take 1900 ++ "...") ∧
      (send_to_discord big_content).attempted = true) := by
  have h : (wrap_payload big_content).length > 2000 := by
    have hb : big_content.length = 1993 := by
      rw [big_content, String.length_mk, List.length_replicate]
    have h4a : ("```\n" : String).length = 4 := rfl
    have h4b : ("\n```" : String).length = 4 := rfl
    simp only [wrap_payload, String.length_append, h4a, h4b, hb]
    omega
  exact ⟨h, C5_oversized_payload_truncated big_content h⟩

lemma sender_step_writer (s : Session) : s.sender_step.writer = s.writer := by
  obtain ⟨w, q, d⟩ := s
  cases q <;> rfl

lemma sender_step_history (s : Session) :
    s.sender_step.dispatched ++ s.sender_step.send_queue =
      s.dispatched ++ s.send_queue := by
  obtain ⟨w, q, d⟩ := s
  cases q <;> simp [Session.sender_step]

lemma run_ops_history (ops : List SessionOp) (s : Session) :
    (run_ops s ops).writer = writer_after s.writer ops ∧
    (run_ops s ops).dispatched ++ (run_ops s ops).send_queue =
      s.dispatched ++ s.send_queue ++ emitted_chunks s.writer ops := by
  induction ops generalizing s with
  | nil => simp [run_ops, writer_after, emitted_chunks]
  | cons op ops ih =>
    cases op with
    | wr t =>
      obtain ⟨ih1, ih2⟩ := ih (s.write t)
      constructor
      · simp only [run_ops, writer_after]
        exact ih1
      · simp only [run_ops, emitted_chunks]
        rw [ih2]
        simp [Session.write, List.append_assoc]
    | deliver =>
      obtain ⟨ih1, ih2⟩ := ih s.sender_step
      constructor
      · simp only [run_ops, writer_after]
        rw [ih1, sender_step_writer]
      · simp only [run_ops, emitted_chunks]
        rw [ih2, sender_step_writer, sender_step_history]

/-- Claim C6: under any interleaving of producer writes and iterations of
the single background sender worker, the chunks passed to
`_send_to_discord` so far, followed by the chunks still queued, are
exactly the chunks the writes enqueued, in write order — so dispatch
order always equals enqueue order, which equals the order the source
bytes were written; worker iterations are single atomic dequeue-deliver
steps (no parallel dispatch) and never touch the producer's buffers. -/
theorem C6_chunks_dispatched_in_write_order
    (min_lines max_buffer_size : Nat) (ops : List SessionOp) :
    (run_ops (init_session min_lines max_buffer_size) ops).dispatched ++
      (run_ops (init_session min_lines max_buffer_size) ops).send_queue =
      emitted_chunks (init_writer min_lines max_buffer_size) ops ∧
    (run_ops (init_session min_lines max_buffer_size) ops).writer =
      writer_after (init_writer min_lines max_buffer_size) ops := by
  obtain ⟨h1, h2⟩ := run_ops_history ops (init_session min_lines max_buffer_size)
  exact ⟨by simpa [init_session] using h2, h1⟩

/-- Counterexample to claim C8 as stated: the envelope
`{token: "t1", data: {options: [{}]}}` carries a (truthy) delivery token
but no prompt; the handler nevertheless answers with the structured HTTP
400 body, not with a direct Discord delivery, because `lambda_handler`
invokes `_handle_request_error` with the empty-string token literal on
every parse failure. -/
theorem C8_token_present_still_http400 :
    parseSnsMessage
        { token := some "t1",
          data := some { options := some [{ value := none }] } } =
      Except.error ParseError.promptMissing ∧
    pyTruthyStr (SnsRequest.token
        { token := some "t1",
          data := some { options := some [{ value := none }] } }) =
      some "t1" ∧
    lambdaHandlerParse
        { token := some "t1",
          data := some { options := some [{ value := none }] } } =
      Except.error (HandlerResponse.httpError 400
        "リクエストの形式が不正です" "プロンプトが見つかりません") :=
  ⟨rfl, rfl, rfl⟩

/-- Amended claim C8: every malformed inbound envelope (missing delivery
token, missing options, or missing prompt) is reported via the structured
HTTP 400 response body, regardless of whether a token is present in the
envelope, because the handler passes an empty token to the error reporter
for every parse failure; direct Discord delivery is used only for errors
occurring after parsing succeeds. -/
theorem C8_parse_failure_always_http400 (req : SnsRequest) (e : ParseError)
    (h : parseSnsMessage req = Except.error e) :
    lambdaHandlerParse req =
      Except.error (HandlerResponse.httpError 400
        "リクエストの形式が不正です" (parseErrorMessage e)) := by
  unfold lambdaHandlerParse
  rw [h]
  rfl

/-- Witness for the amended claim C8 at a concrete malformed envelope. -/
theorem C8_parse_failure_always_http400_witness :
    lambdaHandlerParse { token := some "t1", data := none } =
      Except.error (HandlerResponse.httpError 400
        "リクエストの形式が不正です"
        (parseErrorMessage ParseError.optionsMissing)) :=
  C8_parse_failure_always_http400
    { token := some "t1", data := none } ParseError.optionsMissing rfl
